import Mathlib

/-!
Verification of the blaze server expression wire codec and dispatch handlers
(`blaze/server/server.py`).
-/

/-- Primitive wire/expression scalar values (strings, ints, booleans, None). -/
inductive Prim where
  | str : String → Prim
  | int : Int → Prim
  | bool : Bool → Prim
  | null : Prim
deriving DecidableEq, Repr

/-- In-memory expression-level values: the arguments and nodes of a blaze
expression graph.  `node op args` models a blaze `Expr` instance of class
named `op` with `_args` list `args` (a `Symbol` is `node "Symbol"
[name, dshapeText, token]`); `slice` models `blaze.expr.utils._slice`;
`tup` models a Python tuple argument; `prim` a plain scalar. -/
inductive MValue where
  | prim : Prim → MValue
  | slice : MValue → MValue → MValue → MValue
  | tup : List MValue → MValue
  | node : String → List MValue → MValue
deriving Repr

mutual

/-- Decidable equality for expression values (hand-written because the
nested `List` occurrence defeats the automatic deriving handler). -/
def decEqMValue (a b : MValue) : Decidable (a = b) :=
  match a, b with
  | .prim p, .prim q =>
    match decEq p q with
    | isTrue h => isTrue (by rw [h])
    | isFalse h => isFalse (by intro hh; injection hh; contradiction)
  | .slice a1 a2 a3, .slice b1 b2 b3 =>
    match decEqMValue a1 b1, decEqMValue a2 b2, decEqMValue a3 b3 with
    | isTrue h1, isTrue h2, isTrue h3 => isTrue (by rw [h1, h2, h3])
    | isFalse h1, _, _ => isFalse (by intro hh; injection hh; contradiction)
    | _, isFalse h2, _ => isFalse (by intro hh; injection hh; contradiction)
    | _, _, isFalse h3 => isFalse (by intro hh; injection hh; contradiction)
  | .tup xs, .tup ys =>
    match decEqMValueList xs ys with
    | isTrue h => isTrue (by rw [h])
    | isFalse h => isFalse (by intro hh; injection hh; contradiction)
  | .node s xs, .node t ys =>
    match decEq s t, decEqMValueList xs ys with
    | isTrue h1, isTrue h2 => isTrue (by rw [h1, h2])
    | isFalse h1, _ => isFalse (by intro hh; injection hh; contradiction)
    | _, isFalse h2 => isFalse (by intro hh; injection hh; contradiction)
  | .prim _, .slice _ _ _ => isFalse (fun h => by injection h)
  | .prim _, .tup _ => isFalse (fun h => by injection h)
  | .prim _, .node _ _ => isFalse (fun h => by injection h)
  | .slice _ _ _, .prim _ => isFalse (fun h => by injection h)
  | .slice _ _ _, .tup _ => isFalse (fun h => by injection h)
  | .slice _ _ _, .node _ _ => isFalse (fun h => by injection h)
  | .tup _, .prim _ => isFalse (fun h => by injection h)
  | .tup _, .slice _ _ _ => isFalse (fun h => by injection h)
  | .tup _, .node _ _ => isFalse (fun h => by injection h)
  | .node _ _, .prim _ => isFalse (fun h => by injection h)
  | .node _ _, .slice _ _ _ => isFalse (fun h => by injection h)
  | .node _ _, .tup _ => isFalse (fun h => by injection h)

/-- Decidable equality for lists of expression values. -/
def decEqMValueList (xs ys : List MValue) : Decidable (xs = ys) :=
  match xs, ys with
  | [], [] => isTrue rfl
  | [], _ :: _ => isFalse (fun h => by injection h)
  | _ :: _, [] => isFalse (fun h => by injection h)
  | x :: xs, y :: ys =>
    match decEqMValue x y, decEqMValueList xs ys with
    | isTrue h1, isTrue h2 => isTrue (by rw [h1, h2])
    | isFalse h1, _ => isFalse (by intro hh; injection hh; contradiction)
    | _, isFalse h2 => isFalse (by intro hh; injection hh; contradiction)

end

instance : DecidableEq MValue := decEqMValue

/-- Wire trees: the output language of `to_tree` (JSON-like core data
structures: scalars, lists, and `mapping op args` for a dict of the shape
`\x7b'op': op, 'args': args\x7d`). -/
inductive WValue where
  | prim : Prim → WValue
  | list : List WValue → WValue
  | dict : String → List WValue → WValue
deriving Repr

/-- Association-list lookup keyed by `MValue` (models `expr in names` /
`names[expr]` on the `names` dict of `to_tree`). -/
def lookupNames (names : List (MValue × Prim)) (v : MValue) : Option Prim :=
  (names.find? (fun p => p.1 == v)).map (fun p => p.2)

/-- Association-list lookup keyed by `Prim` (models the `namespace` dict of
`from_tree`; an absent namespace is modelled by `[]`, which matches the
falsiness of `None` and of an empty dict in `if namespace and expr in
namespace`). -/
def lookupNs (ns : List (Prim × MValue)) (p : Prim) : Option MValue :=
  (ns.find? (fun q => q.1 == p)).map (fun q => q.2)

mutual

/-- `to_tree(expr, names)` from `server.py`: encode an expression graph into
core data structures.  The `names` table is consulted first at every level;
tuples become lists; `_slice`/`slice` values become `\x7b'op': 'slice', ...\x7d`
mappings; an `Expr` node becomes a mapping of its class name and encoded
`_args`; anything else is returned unchanged.  The source performs the
`names` check once before dispatching on the value's shape; here the same
check is repeated identically in every constructor arm (observationally
identical) so that the recursion is structural. -/
def to_tree (names : List (MValue × Prim)) : MValue → WValue
  | .prim p =>
    match lookupNames names (.prim p) with
    | some a => .prim a
    | none => .prim p
  | .slice a b c =>
    match lookupNames names (.slice a b c) with
    | some x => .prim x
    | none => .dict "slice" [to_tree names a, to_tree names b, to_tree names c]
  | .tup xs =>
    match lookupNames names (.tup xs) with
    | some a => .prim a
    | none => .list (to_tree_list names xs)
  | .node op args =>
    match lookupNames names (.node op args) with
    | some a => .prim a
    | none => .dict op (to_tree_list names args)

/-- Pointwise `to_tree` over an argument list. -/
def to_tree_list (names : List (MValue × Prim)) (es : List MValue) : List WValue :=
  match es with
  | [] => []
  | x :: xs => to_tree names x :: to_tree_list names xs

end

/-- String-keyed association-list lookup (models `hasattr`/`getattr` over a
module namespace, and dictionary lookup keyed by strings). -/
def lookupStr {α : Type} (m : List (String × α)) (k : String) : Option α :=
  (m.find? (fun p => p.1 == k)).map (fun p => p.2)

/-- `p` occurs as a contiguous sublist of the second argument. -/
def charsContain (p : List Char) : List Char → Bool
  | [] => p.isEmpty
  | c :: cs => p.isPrefixOf (c :: cs) || charsContain p cs

/-- Python substring containment `pat in s` on strings. -/
def strContainsSub (s pat : String) : Bool :=
  charsContain pat.toList s.toList

/-- The live module namespaces and function catalogue that operation-tag
resolution reflects over: `blazeNS` models the attributes of the top-level
`blaze` module, `exprNS` the attributes of `blaze.expr`, and `funcs` the
names `signature[0].__name__` of the first-argument types registered in
`compute_up.funcs` (entries whose signature is not subscriptable are
skipped by the `TypeError` guard and hence simply absent here).  A
constructor (a Python class) is identified by its `__name__`: applying a
constructor named `c` to decoded children builds the node `MValue.node c
children`. -/
structure ResolveEnv where
  blazeNS : List (String × String)
  exprNS : List (String × String)
  funcs : List String
deriving Repr

/-- `expression_from_name(name)` from `server.py`: try `blaze`, then
`blaze.expr`, then the first-argument type names of `compute_up.funcs`;
otherwise raise `ValueError('%s not found in compute_up' % name)`. -/
def expression_from_name (env : ResolveEnv) (name : String) : Except String String :=
  match lookupStr env.blazeNS name with
  | some c => .ok c
  | none =>
    match lookupStr env.exprNS name with
    | some c => .ok c
    | none =>
      match env.funcs.find? (fun f => f == name) with
      | some c => .ok c
      | none => .error (name ++ " not found in compute_up")

/-- Operation-tag resolution as performed inside `from_tree` (lines
470-473 of `server.py`): `blaze.expr` is consulted first via
`hasattr(blaze.expr, op)`; only on failure does resolution fall through to
`expression_from_name`. -/
def resolveCls (env : ResolveEnv) (op : String) : Except String String :=
  match lookupStr env.exprNS op with
  | some c => .ok c
  | none => expression_from_name env op

mutual

/-- `from_tree(expr, namespace)` from `server.py`: decode a wire tree back
into an expression.  A mapping with tag `'slice'` rebuilds a
`_slice` from its three decoded args (decoded with the namespace); any
other mapping resolves its tag to a constructor, decodes its args — with
the namespace dropped when `'Symbol' in op` (the recursive call is
`from_tree(arg)`, i.e. `namespace=None`) — and applies the constructor;
a list decodes pointwise into a tuple; any other value is substituted
through the namespace if it is a key there, else returned unchanged.
Raised `ValueError`s (unresolvable tags) surface as `Except.error`. -/
def from_tree (env : ResolveEnv) (ns : List (Prim × MValue)) : WValue → Except String MValue
  | .dict op args =>
    if op = "slice" then
      match from_tree_list env ns args with
      | .error e => .error e
      | .ok [a, b, c] => .ok (.slice a b c)
      | .ok _ => .error "TypeError: _slice expects three arguments"
    else
      match resolveCls env op with
      | .error e => .error e
      | .ok cls =>
        match from_tree_list env (if strContainsSub op "Symbol" then [] else ns) args with
        | .error e => .error e
        | .ok children => .ok (.node cls children)
  | .list xs =>
    match from_tree_list env ns xs with
    | .error e => .error e
    | .ok cs => .ok (.tup cs)
  | .prim p =>
    match lookupNs ns p with
    | some v => .ok v
    | none => .ok (.prim p)

/-- Pointwise `from_tree` over an argument list, propagating the first
raised error (Python evaluates the list comprehension left to right). -/
def from_tree_list (env : ResolveEnv) (ns : List (Prim × MValue)) :
    List WValue → Except String (List MValue)
  | [] => .ok []
  | x :: xs =>
    match from_tree env ns x with
    | .error e => .error e
    | .ok c =>
      match from_tree_list env ns xs with
      | .error e => .error e
      | .ok cs => .ok (c :: cs)

end

mutual

/-- Side conditions under which the wire round trip reconstructs a value
exactly: every aliased subvalue occurs where the namespace is active and
the namespace maps its alias back to it; no plain primitive at a
namespace-active position collides with a namespace key; no generic node
uses the reserved tag `slice`; every node tag resolves (during decoding)
to a constructor of the same name; and inside a Symbol-tagged node the
namespace is switched off, exactly as `from_tree` switches it off. -/
def wf (env : ResolveEnv) (names : List (MValue × Prim)) (ns : List (Prim × MValue)) :
    MValue → Bool
  | .prim p =>
    match lookupNames names (.prim p) with
    | some a => decide (lookupNs ns a = some (MValue.prim p))
    | none => (lookupNs ns p).isNone
  | .slice a b c =>
    match lookupNames names (.slice a b c) with
    | some x => decide (lookupNs ns x = some (MValue.slice a b c))
    | none => wf env names ns a && wf env names ns b && wf env names ns c
  | .tup xs =>
    match lookupNames names (.tup xs) with
    | some a => decide (lookupNs ns a = some (MValue.tup xs))
    | none => wf_list env names ns xs
  | .node op args =>
    match lookupNames names (.node op args) with
    | some a => decide (lookupNs ns a = some (MValue.node op args))
    | none =>
      (!(op == "slice")) &&
        (match resolveCls env op with
         | .ok c => c == op
         | .error _ => false) &&
        wf_list env names (if strContainsSub op "Symbol" then [] else ns) args

/-- Pointwise `wf` over an argument list. -/
def wf_list (env : ResolveEnv) (names : List (MValue × Prim)) (ns : List (Prim × MValue)) :
    List MValue → Bool
  | [] => true
  | x :: xs => wf env names ns x && wf_list env names ns xs

end

/-- Structural induction for `MValue` with membership hypotheses for the
nested argument lists. -/
def MValue.indOn (P : MValue → Prop)
    (hprim : ∀ p, P (.prim p))
    (hslice : ∀ a b c, P a → P b → P c → P (.slice a b c))
    (htup : ∀ xs, (∀ x ∈ xs, P x) → P (.tup xs))
    (hnode : ∀ op args, (∀ x ∈ args, P x) → P (.node op args)) :
    ∀ v, P v
  | .prim p => hprim p
  | .slice a b c =>
    hslice a b c (indOn P hprim hslice htup hnode a) (indOn P hprim hslice htup hnode b)
      (indOn P hprim hslice htup hnode c)
  | .tup xs => htup xs (fun x hx => indOn P hprim hslice htup hnode x)
  | .node op args => hnode op args (fun x hx => indOn P hprim hslice htup hnode x)
termination_by v => sizeOf v
decreasing_by
  all_goals simp_wf
  all_goals first
    | omega
    | (have h := List.sizeOf_lt_of_mem hx; omega)

example : to_tree [] (.node "sum" [.prim (.str "x")]) = .dict "sum" [.prim (.str "x")] := rfl

example :
    from_tree ⟨[], [("sum", "sum")], []⟩ [] (.dict "sum" [.prim (.str "x")]) =
      .ok (.node "sum" [.prim (.str "x")]) := rfl

/-- Unfold lemma for `to_tree` at a primitive. -/
theorem to_tree_prim (names : List (MValue × Prim)) (p : Prim) :
    to_tree names (.prim p) =
      match lookupNames names (.prim p) with
      | some a => .prim a
      | none => .prim p := rfl

/-- Unfold lemma for `to_tree` at a slice. -/
theorem to_tree_slice (names : List (MValue × Prim)) (a b c : MValue) :
    to_tree names (.slice a b c) =
      match lookupNames names (.slice a b c) with
      | some x => .prim x
      | none => .dict "slice" [to_tree names a, to_tree names b, to_tree names c] := rfl

/-- Unfold lemma for `to_tree` at a tuple. -/
theorem to_tree_tup (names : List (MValue × Prim)) (xs : List MValue) :
    to_tree names (.tup xs) =
      match lookupNames names (.tup xs) with
      | some a => .prim a
      | none => .list (to_tree_list names xs) := rfl

/-- Unfold lemma for `to_tree` at a generic node. -/
theorem to_tree_node (names : List (MValue × Prim)) (op : String) (args : List MValue) :
    to_tree names (.node op args) =
      match lookupNames names (.node op args) with
      | some a => .prim a
      | none => .dict op (to_tree_list names args) := rfl

/-- Unfold lemma for `from_tree` at a primitive wire value. -/
theorem from_tree_prim (env : ResolveEnv) (ns : List (Prim × MValue)) (p : Prim) :
    from_tree env ns (.prim p) =
      match lookupNs ns p with
      | some v => .ok v
      | none => .ok (.prim p) := rfl

/-- Unfold lemma for `from_tree` at a wire list. -/
theorem from_tree_listv (env : ResolveEnv) (ns : List (Prim × MValue)) (xs : List WValue) :
    from_tree env ns (.list xs) =
      match from_tree_list env ns xs with
      | .error e => .error e
      | .ok cs => .ok (.tup cs) := rfl

/-- Unfold lemma for `from_tree` at a wire mapping. -/
theorem from_tree_dict (env : ResolveEnv) (ns : List (Prim × MValue)) (op : String)
    (args : List WValue) :
    from_tree env ns (.dict op args) =
      (if op = "slice" then
        match from_tree_list env ns args with
        | .error e => .error e
        | .ok [a, b, c] => .ok (.slice a b c)
        | .ok _ => .error "TypeError: _slice expects three arguments"
      else
        match resolveCls env op with
        | .error e => .error e
        | .ok cls =>
          match from_tree_list env (if strContainsSub op "Symbol" then [] else ns) args with
          | .error e => .error e
          | .ok children => .ok (.node cls children)) := rfl

/-- Unfold lemma for `wf` at a primitive. -/
theorem wf_prim (env : ResolveEnv) (names : List (MValue × Prim)) (ns : List (Prim × MValue))
    (p : Prim) :
    wf env names ns (.prim p) =
      match lookupNames names (.prim p) with
      | some a => decide (lookupNs ns a = some (.prim p))
      | none => (lookupNs ns p).isNone := rfl

/-- Unfold lemma for `wf` at a slice. -/
theorem wf_slice (env : ResolveEnv) (names : List (MValue × Prim)) (ns : List (Prim × MValue))
    (a b c : MValue) :
    wf env names ns (.slice a b c) =
      match lookupNames names (.slice a b c) with
      | some x => decide (lookupNs ns x = some (.slice a b c))
      | none => wf env names ns a && wf env names ns b && wf env names ns c := rfl

/-- Unfold lemma for `wf` at a tuple. -/
theorem wf_tup (env : ResolveEnv) (names : List (MValue × Prim)) (ns : List (Prim × MValue))
    (xs : List MValue) :
    wf env names ns (.tup xs) =
      match lookupNames names (.tup xs) with
      | some a => decide (lookupNs ns a = some (.tup xs))
      | none => wf_list env names ns xs := rfl

/-- Unfold lemma for `wf` at a generic node. -/
theorem wf_node (env : ResolveEnv) (names : List (MValue × Prim)) (ns : List (Prim × MValue))
    (op : String) (args : List MValue) :
    wf env names ns (.node op args) =
      match lookupNames names (.node op args) with
      | some a => decide (lookupNs ns a = some (.node op args))
      | none =>
        (!(op == "slice")) &&
          (match resolveCls env op with
           | .ok c => c == op
           | .error _ => false) &&
          wf_list env names (if strContainsSub op "Symbol" then [] else ns) args := rfl

/-- Round trip over an argument list, given the round trip for each
member. -/
theorem from_tree_list_roundtrip (env : ResolveEnv) (names : List (MValue × Prim))
    (xs : List MValue)
    (ih : ∀ x ∈ xs, ∀ ns, wf env names ns x = true →
      from_tree env ns (to_tree names x) = .ok x) :
    ∀ ns, wf_list env names ns xs = true →
      from_tree_list env ns (to_tree_list names xs) = .ok xs := by
  induction xs with
  | nil => intro ns _; rw [to_tree_list, from_tree_list]
  | cons x xs ihl =>
    intro ns h
    rw [wf_list, Bool.and_eq_true] at h
    rw [to_tree_list, from_tree_list,
      ih x (List.mem_cons_self x xs) ns h.1,
      ihl (fun y hy => ih y (List.mem_cons_of_mem x hy)) ns h.2]

/-- Round trip: under the `wf` side conditions, `from_tree` inverts
`to_tree`. -/
theorem to_from_tree_aux (env : ResolveEnv) (names : List (MValue × Prim)) :
    ∀ v ns, wf env names ns v = true →
      from_tree env ns (to_tree names v) = .ok v := by
  intro v
  refine MValue.indOn
    (fun v => ∀ ns, wf env names ns v = true →
      from_tree env ns (to_tree names v) = .ok v) ?_ ?_ ?_ ?_ v
  · intro p ns h
    rw [wf_prim] at h
    cases hl : lookupNames names (MValue.prim p) with
    | some a =>
      simp only [hl] at h
      simp only [to_tree_prim, hl]
      simp only [from_tree_prim, of_decide_eq_true h]
    | none =>
      simp only [hl] at h
      simp only [to_tree_prim, hl]
      simp only [from_tree_prim, Option.isNone_iff_eq_none.mp h]
  · intro a b c iha ihb ihc ns h
    rw [wf_slice] at h
    cases hl : lookupNames names (MValue.slice a b c) with
    | some x =>
      simp only [hl] at h
      simp only [to_tree_slice, hl]
      simp only [from_tree_prim, of_decide_eq_true h]
    | none =>
      simp only [hl] at h
      rw [Bool.and_eq_true, Bool.and_eq_true] at h
      simp only [to_tree_slice, hl]
      rw [from_tree_dict, if_pos rfl]
      simp only [from_tree_list, iha ns h.1.1, ihb ns h.1.2, ihc ns h.2]
  · intro xs ihxs ns h
    rw [wf_tup] at h
    cases hl : lookupNames names (MValue.tup xs) with
    | some a =>
      simp only [hl] at h
      simp only [to_tree_tup, hl]
      simp only [from_tree_prim, of_decide_eq_true h]
    | none =>
      simp only [hl] at h
      simp only [to_tree_tup, hl]
      rw [from_tree_listv, from_tree_list_roundtrip env names xs ihxs ns h]
  · intro op args ihargs ns h
    rw [wf_node] at h
    cases hl : lookupNames names (MValue.node op args) with
    | some a =>
      simp only [hl] at h
      simp only [to_tree_node, hl]
      simp only [from_tree_prim, of_decide_eq_true h]
    | none =>
      simp only [hl] at h
      rw [Bool.and_eq_true, Bool.and_eq_true] at h
      have hop : ¬(op = "slice") := by
        have := h.1.1
        simpa using this
      cases hr : resolveCls env op with
      | error e => rw [hr] at h; exact absurd h.1.2 (by simp)
      | ok c =>
        rw [hr] at h
        have hc : c = op := by simpa using h.1.2
        simp only [to_tree_node, hl]
        rw [from_tree_dict, if_neg hop]
        simp only [hr, from_tree_list_roundtrip env names args ihargs _ h.2, hc]

/-- The symbol `t` of the round-trip scenarios: `symbol('t', 'var * \x7bt: int32, x: int32\x7d')`. -/
def symT : MValue :=
  .node "Symbol" [.prim (.str "t"), .prim (.str "var * \x7bt: int32, x: int32\x7d"), .prim (.bool false)]

/-- A resolution environment in which the tags of the round-trip scenarios
resolve (in `blaze.expr`) to constructors of the same name, as they do in
the live engine. -/
def envRT : ResolveEnv :=
  ⟨[], [("Symbol", "Symbol"), ("Field", "Field"), ("sum", "sum")], []⟩

/-- The name table aliasing the symbol `t` to the string `'t'`, and its
inverse namespace. -/
def namesRT : List (MValue × Prim) := [(symT, .str "t")]

/-- Inverse of `namesRT`. -/
def nsRT : List (Prim × MValue) := [(.str "t", symT)]

/-- The expression `t.t` — the field of `t` named `'t'` (`Field(t, 't')`). -/
def eCapture : MValue := .node "Field" [symT, .prim (.str "t")]

/-- C1 counterexample: for the well-formed expression `t.t` (a `Field` node
over the symbol `t`, whose only leaf symbol is a key of the name table),
with the namespace being the exact inverse of the name table and every tag
resolving to itself, the round trip is NOT the identity: the field-name
string `'t'` collides with the wire alias of the symbol and is captured by
the namespace, so decoding returns `Field(t, t)` instead of `Field(t, 't')`. -/
theorem C1_roundtrip_counterexample :
    lookupNames namesRT symT = some (.str "t") ∧
    lookupNs nsRT (.str "t") = some symT ∧
    resolveCls envRT "Field" = .ok "Field" ∧
    resolveCls envRT "Symbol" = .ok "Symbol" ∧
    to_tree namesRT eCapture = .dict "Field" [.prim (.str "t"), .prim (.str "t")] ∧
    from_tree envRT nsRT (to_tree namesRT eCapture) = .ok (.node "Field" [symT, symT]) ∧
    (MValue.node "Field" [symT, symT]) ≠ eCapture := by
  refine ⟨rfl, rfl, rfl, rfl, rfl, rfl, ?_⟩
  decide

/-- C1 (amended): `from_tree(to_tree(e, names), namespace=inverse(names))`
is structurally equal to `e` for every expression `e` satisfying `wf`:
every aliased subvalue sits at a namespace-active position and the
namespace maps its alias back to it, every node tag resolves during
decoding to a constructor of the same name, no generic node uses the
reserved tag `slice`, and — the condition the original claim lacks — no
primitive leaf at a namespace-active position is itself a key of the
namespace (otherwise it is captured, as `C1_roundtrip_counterexample`
shows). -/
theorem C1_wire_roundtrip (env : ResolveEnv) (names : List (MValue × Prim))
    (ns : List (Prim × MValue)) (e : MValue) (h : wf env names ns e = true) :
    from_tree env ns (to_tree names e) = Except.ok e :=
  to_from_tree_aux env names e ns h

/-- The expression `sum(t.x)` used as round-trip witness. -/
def eSum : MValue := .node "sum" [.node "Field" [symT, .prim (.str "x")]]

/-- Witness for `C1_wire_roundtrip`: the side conditions are satisfiable
and the round trip reconstructs `sum(t.x)` with the symbol aliased. -/
theorem C1_wire_roundtrip_witness :
    wf envRT namesRT nsRT eSum = true ∧
    from_tree envRT nsRT (to_tree namesRT eSum) = Except.ok eSum :=
  ⟨by decide, C1_wire_roundtrip envRT namesRT nsRT eSum (by decide)⟩

/-- C2: when `from_tree` decodes a wire mapping whose tag contains
`'Symbol'`, the arguments are decoded with NO namespace substitution — the
result is independent of the supplied namespace (the recursive call is
`from_tree(arg)`); for every other non-`slice` tag the arguments are
decoded with the supplied namespace substitution enabled. -/
theorem C2_symbol_tag_skips_namespace (env : ResolveEnv) (op : String) (args : List WValue) :
    (strContainsSub op "Symbol" = true →
      ∀ ns ns2, from_tree env ns (.dict op args) = from_tree env ns2 (.dict op args)) ∧
    (strContainsSub op "Symbol" = false → op ≠ "slice" →
      ∀ ns, from_tree env ns (.dict op args) =
        match resolveCls env op with
        | .error e => .error e
        | .ok cls =>
          match from_tree_list env ns args with
          | .error e => .error e
          | .ok children => .ok (.node cls children)) := by
  constructor
  · intro hsym ns ns2
    have hop : ¬(op = "slice") := by
      intro h
      rw [h] at hsym
      exact absurd hsym (by decide)
    rw [from_tree_dict, from_tree_dict, if_neg hop, if_neg hop]
    simp only [hsym, if_true]
  · intro hsym hop ns
    rw [from_tree_dict, if_neg hop]
    simp only [hsym, Bool.false_eq_true, if_false]

/-- Witness for `C2_symbol_tag_skips_namespace`: decoding a `Symbol` node
whose name text `'t'` is a key of the namespace leaves the name text
untouched, while a `Field` node's argument `'t'` is substituted. -/
theorem C2_symbol_tag_skips_namespace_witness :
    from_tree envRT nsRT
        (.dict "Symbol" [.prim (.str "t"), .prim (.str "int32"), .prim (.bool false)]) =
      from_tree envRT []
        (.dict "Symbol" [.prim (.str "t"), .prim (.str "int32"), .prim (.bool false)]) ∧
    from_tree envRT nsRT (.dict "Field" [.prim (.str "t"), .prim (.str "x")]) =
      .ok (.node "Field" [symT, .prim (.str "x")]) := by
  constructor
  · exact (C2_symbol_tag_skips_namespace envRT "Symbol"
      [.prim (.str "t"), .prim (.str "int32"), .prim (.bool false)]).1 (by decide) nsRT []
  · rw [(C2_symbol_tag_skips_namespace envRT "Field" [.prim (.str "t"), .prim (.str "x")]).2
      (by decide) (by decide) nsRT]
    rfl

/-- Environment of the C3 counterexample: the tag `X` is bound both at top
level (to a constructor named `TopX`) and in the expression module (to a
constructor named `ExprX`). -/
def envC3 : ResolveEnv := ⟨[("X", "TopX")], [("X", "ExprX")], []⟩

/-- C3 counterexample: the claimed search order — top-level namespace
first — is exactly what `expression_from_name` implements, and on the tag
`X` it yields the top-level binding `TopX`; but decoding `\x7b'op': 'X',
'args': []\x7d` through `from_tree` constructs via `ExprX`, because
`from_tree` consults the expression-module namespace BEFORE
`expression_from_name` ever runs.  So during decoding the search order is
not `(1) top-level, (2) expression module, (3) catalogue`. -/
theorem C3_resolution_order_counterexample :
    lookupStr envC3.blazeNS "X" = some "TopX" ∧
    expression_from_name envC3 "X" = .ok "TopX" ∧
    from_tree envC3 [] (.dict "X" []) = .ok (.node "ExprX" []) ∧
    (MValue.node "ExprX" []) ≠ (MValue.node "TopX" []) := by
  refine ⟨rfl, rfl, rfl, ?_⟩
  decide

/-- C3 (amended): during decoding a tag is resolved by consulting the
expression-module namespace first; only if the tag is absent there does
resolution fall back to `expression_from_name`, which searches the
top-level namespace, then the expression-module namespace, then the
registered-function catalogue by first-argument type name; the first match
wins, and if none matches, decoding fails with an error naming the tag
(`'<tag> not found in compute_up'`). -/
theorem C3_decoding_resolution_order (env : ResolveEnv) (op : String) (hop : op ≠ "slice") :
    (∀ c, lookupStr env.exprNS op = some c →
      from_tree env [] (.dict op []) = .ok (.node c [])) ∧
    (lookupStr env.exprNS op = none → ∀ c, lookupStr env.blazeNS op = some c →
      from_tree env [] (.dict op []) = .ok (.node c [])) ∧
    (lookupStr env.exprNS op = none → lookupStr env.blazeNS op = none →
      ∀ c, env.funcs.find? (fun f => f == op) = some c →
        from_tree env [] (.dict op []) = .ok (.node c [])) ∧
    (lookupStr env.exprNS op = none → lookupStr env.blazeNS op = none →
      env.funcs.find? (fun f => f == op) = none →
      from_tree env [] (.dict op []) = .error (op ++ " not found in compute_up")) := by
  refine ⟨?_, ?_, ?_, ?_⟩
  · intro c h
    rw [from_tree_dict, if_neg hop]
    simp only [resolveCls, h, from_tree_list]
  · intro h1 c h2
    rw [from_tree_dict, if_neg hop]
    simp only [resolveCls, expression_from_name, h1, h2, from_tree_list]
  · intro h1 h2 c h3
    rw [from_tree_dict, if_neg hop]
    simp only [resolveCls, expression_from_name, h1, h2, h3, from_tree_list]
  · intro h1 h2 h3
    rw [from_tree_dict, if_neg hop]
    simp only [resolveCls, expression_from_name, h1, h2, h3]

/-- Environment exercising all four resolution branches. -/
def envC3w : ResolveEnv := ⟨[("B", "B1")], [("A", "A1")], ["C"]⟩

/-- Witness for `C3_decoding_resolution_order`: each of the four branches
fires on a concrete environment. -/
theorem C3_decoding_resolution_order_witness :
    from_tree envC3w [] (.dict "A" []) = .ok (.node "A1" []) ∧
    from_tree envC3w [] (.dict "B" []) = .ok (.node "B1" []) ∧
    from_tree envC3w [] (.dict "C" []) = .ok (.node "C" []) ∧
    from_tree envC3w [] (.dict "D" []) = .error "D not found in compute_up" :=
  ⟨(C3_decoding_resolution_order envC3w "A" (by decide)).1 "A1" rfl,
   (C3_decoding_resolution_order envC3w "B" (by decide)).2.1 rfl "B1" rfl,
   (C3_decoding_resolution_order envC3w "C" (by decide)).2.2.1 rfl rfl "C" rfl,
   (C3_decoding_resolution_order envC3w "D" (by decide)).2.2.2 rfl rfl rfl⟩

mutual

/-- Modelled from the spec: `Expr._leaves()` of blaze's expression core
(the class is imported by `server.py` but its module is not part of the
given sources).  A `Symbol` node is its own single leaf; any other
expression node collects the distinct leaves of its expression-node
arguments (non-node arguments — strings, numbers, tuples, slices — are not
`_inputs` and contribute none). -/
def leavesOf : MValue → List MValue
  | .prim _ => []
  | .slice _ _ _ => []
  | .tup _ => []
  | .node op args =>
    if op == "Symbol" then [.node op args]
    else (leavesOfList args).dedup

/-- Leaves collected across an argument list, in order. -/
def leavesOfList : List MValue → List MValue
  | [] => []
  | x :: xs => leavesOf x ++ leavesOfList xs

end

/-- The profiling configuration registered for the app:
`(allow_profiler, profiler_output, profile_by_default)` as returned by
`_get_profiler_info()`. -/
structure ProfilerCfg where
  allow_profiler : Bool
  profiler_output : Option String
  profile_by_default : Bool
deriving Repr, DecidableEq

/-- The decoded `/compute` payload as read by `compserver`: the wire
expression, the client-supplied `'namespace'` mapping (default empty), and
the optional `'profile'` and `'profiler_output'` fields (`none` = key
absent; the payload values are JSON booleans/strings).  `compute_kwargs`
and `odo_kwargs` are forwarded opaquely to the engine and are not
modelled. -/
structure ComputePayload where
  expr : WValue
  nspace : List (Prim × MValue)
  profile : Option Bool
  profiler_output : Option String

/-- Outcome of the `try:` block around `compute` + `serial.materialize`:
either a materialized result, a `NotImplementedError` with its message, or
any other exception with its class name (`type(e).__name__`) and message. -/
inductive ComputeOutcome where
  | ok (result : String)
  | notImplemented (msg : String)
  | failure (kind msg : String)
deriving Repr, DecidableEq

/-- What the transport layer sees from a handler: either a returned
response `(body, status)`, or an exception that propagated out of the
handler uncaught. -/
inductive HttpOutcome where
  | reply (body : String) (status : Nat)
  | uncaught (exc : String)
deriving Repr, DecidableEq

/-- Python truthiness of an optional string (`None` and `''` are falsy). -/
def optStrTruthy : Option String → Bool
  | none => false
  | some s => !(s == "")

/-- `payload.get('profiler_output', default_profiler_output)`. -/
def requestedOutput (cfg : ProfilerCfg) (payload : ComputePayload) : Option String :=
  match payload.profiler_output with
  | some s => some s
  | none => cfg.profiler_output

/-- The `profiling` flag of `compserver`:
`allow_profiler and (profile or (profile_by_default and
requested_profiler_output))`, under Python truthiness. -/
def profilingFlag (cfg : ProfilerCfg) (payload : ComputePayload) : Bool :=
  cfg.allow_profiler &&
    ((payload.profile == some true) ||
      (cfg.profile_by_default && optStrTruthy (requestedOutput cfg payload)))

/-- Modelled from the spec: `symbol('leaf', discover(dataset))` — a fresh
`Symbol` named `'leaf'` whose datashape is the dataset's inferred shape
(the `symbol` constructor lives in blaze's expression core, outside the
given sources; per the spec a Symbol is a name, a type-descriptor text and
an opaque flag, here `false` by default). -/
def leafSymbol (dshape : String) : MValue :=
  .node "Symbol" [.prim (.str "leaf"), .prim (.str dshape), .prim (.bool false)]

/-- The namespace `compserver` decodes with:
`ns = payload.get('namespace', \x7b\x7d); ns[':leaf'] = symbol('leaf',
discover(dataset))`.  The dict assignment overwrites any client-supplied
`':leaf'` entry; in this association-list model the server's entry is
prepended and shadows any client entry under `lookupNs`. -/
def requestNamespace (payload : ComputePayload) (dshape : String) : List (Prim × MValue) :=
  (Prim.str ":leaf", leafSymbol dshape) :: payload.nspace

/-- `compserver(payload, serial)` from `server.py`, after `check_request`
has decoded the payload.  `dshape` is `discover(_get_data())` rendered as
text; `engine` is the external `compute` + `serial.materialize` pipeline
applied to the decoded expression (the leaf ↦ dataset binding and the
forwarded kwargs are folded into it).  On success the handler returns the
serialized response with status 200 (the response assembly and the
profiler teardown's filesystem/inline output do not affect any status
code and are not modelled).  A `from_tree` error (`ValueError`) and the
failure of `assert len(expr._leaves()) == 1` are NOT caught by the
handler: they propagate to the transport layer as `uncaught`. -/
def compserver (env : ResolveEnv) (cfg : ProfilerCfg) (dshape : String)
    (engine : MValue → ComputeOutcome) (payload : ComputePayload) : HttpOutcome :=
  if payload.profile == some true && !cfg.allow_profiler then
    .reply "profiling is disabled on this server" 403
  else if profilingFlag cfg payload && cfg.profiler_output == some ":response" &&
      !(requestedOutput cfg payload == some ":response") then
    .reply "local filepaths are disabled on this server, only ':response' is allowed for the 'profiler_output' field" 403
  else
    match from_tree env (requestNamespace payload dshape) payload.expr with
    | .error e => .uncaught e
    | .ok expr =>
      if (leavesOf expr).length == 1 then
        match engine expr with
        | .ok r => .reply r 200
        | .notImplemented m => .reply ("Computation not supported:\n" ++ m) 501
        | .failure k m =>
          .reply ("Computation failed with message:\n" ++ k ++ ": " ++ m) 500
      else .uncaught "AssertionError"

/-- The symbol `a` of the two-leaves scenario. -/
def symA : MValue :=
  .node "Symbol" [.prim (.str "a"), .prim (.str "int32"), .prim (.bool false)]

/-- The symbol `b` of the two-leaves scenario. -/
def symB : MValue :=
  .node "Symbol" [.prim (.str "b"), .prim (.str "int32"), .prim (.bool false)]

/-- Resolution environment for the dispatch scenarios. -/
def envDispatch : ResolveEnv := ⟨[], [("Symbol", "Symbol"), ("Add", "Add")], []⟩

/-- A profiling-free server configuration. -/
def cfgPlain : ProfilerCfg := ⟨false, none, false⟩

/-- An engine that always succeeds. -/
def engineOk : MValue → ComputeOutcome := fun _ => .ok "result"

/-- A payload whose expression decodes to `Add(a, b)` with two distinct
leaf symbols. -/
def payloadTwoLeaves : ComputePayload :=
  ⟨.dict "Add" [.dict "Symbol" [.prim (.str "a"), .prim (.str "int32"), .prim (.bool false)],
                .dict "Symbol" [.prim (.str "b"), .prim (.str "int32"), .prim (.bool false)]],
   [], none, none⟩

/-- C4 counterexample: a `/compute` request whose decoded expression has
two distinct leaf symbols does NOT terminate with a 4xx client error —
the `assert len(expr._leaves()) == 1` fails and the `AssertionError`
propagates out of the handler uncaught into the transport layer. -/
theorem C4_multiple_leaves_counterexample :
    from_tree envDispatch (requestNamespace payloadTwoLeaves "int32") payloadTwoLeaves.expr =
      .ok (.node "Add" [symA, symB]) ∧
    (leavesOf (.node "Add" [symA, symB])).length = 2 ∧
    compserver envDispatch cfgPlain "int32" engineOk payloadTwoLeaves =
      .uncaught "AssertionError" :=
  ⟨rfl, rfl, rfl⟩

/-- C4 (amended): for every `/compute` request that passes the profiling
gates and whose expression decodes successfully to an expression with a
number of distinct leaf symbols different from one, the handler raises an
assertion failure that propagates uncaught past the handler (a server
fault, not a 4xx client error); decode errors likewise propagate
uncaught — only engine failures during execute/materialize are caught at
the handler boundary. -/
theorem C4_multiple_leaves_uncaught (env : ResolveEnv) (cfg : ProfilerCfg) (dshape : String)
    (engine : MValue → ComputeOutcome) (payload : ComputePayload) (e : MValue)
    (h1 : (payload.profile == some true && !cfg.allow_profiler) = false)
    (h2 : (profilingFlag cfg payload && cfg.profiler_output == some ":response" &&
      !(requestedOutput cfg payload == some ":response")) = false)
    (h3 : from_tree env (requestNamespace payload dshape) payload.expr = .ok e)
    (h4 : (leavesOf e).length ≠ 1) :
    compserver env cfg dshape engine payload = .uncaught "AssertionError" := by
  have h4b : ((leavesOf e).length == 1) = false := by
    simpa using h4
  simp only [compserver, h1, h2, h3, h4b, Bool.false_eq_true, if_false]

/-- Witness for `C4_multiple_leaves_uncaught` at the two-leaves scenario. -/
theorem C4_multiple_leaves_uncaught_witness :
    compserver envDispatch cfgPlain "int32" engineOk payloadTwoLeaves =
      .uncaught "AssertionError" :=
  C4_multiple_leaves_uncaught envDispatch cfgPlain "int32" engineOk payloadTwoLeaves
    (.node "Add" [symA, symB]) rfl rfl rfl (by decide)

/-- C5: for every `/compute` request that reaches the Execute step (the
profiling gates pass, the expression decodes, and it has exactly one
distinct leaf symbol), a `NotImplementedError` from the engine yields
status 501 with a body carrying the engine's message, and any other
failure yields status 500 with a body carrying exactly the failure's
class name and message — never a stack trace. -/
theorem C5_engine_error_mapping (env : ResolveEnv) (cfg : ProfilerCfg) (dshape : String)
    (engine : MValue → ComputeOutcome) (payload : ComputePayload) (e : MValue)
    (h1 : (payload.profile == some true && !cfg.allow_profiler) = false)
    (h2 : (profilingFlag cfg payload && cfg.profiler_output == some ":response" &&
      !(requestedOutput cfg payload == some ":response")) = false)
    (h3 : from_tree env (requestNamespace payload dshape) payload.expr = .ok e)
    (h4 : (leavesOf e).length = 1) :
    (∀ m, engine e = .notImplemented m →
      compserver env cfg dshape engine payload =
        .reply ("Computation not supported:\n" ++ m) 501) ∧
    (∀ k m, engine e = .failure k m →
      compserver env cfg dshape engine payload =
        .reply ("Computation failed with message:\n" ++ k ++ ": " ++ m) 500) := by
  have h4b : ((leavesOf e).length == 1) = true := by
    simpa using h4
  constructor
  · intro m hm
    simp only [compserver, h1, h2, h3, h4b, hm, Bool.false_eq_true, if_false, if_true]
  · intro k m hm
    simp only [compserver, h1, h2, h3, h4b, hm, Bool.false_eq_true, if_false, if_true]

/-- A payload whose expression is the bare `':leaf'` alias. -/
def payloadLeaf : ComputePayload := ⟨.prim (.str ":leaf"), [], none, none⟩

/-- An engine that raises `NotImplementedError("no sum")`. -/
def engineNotImpl : MValue → ComputeOutcome := fun _ => .notImplemented "no sum"

/-- An engine that raises `TypeError("bad types")`. -/
def engineFail : MValue → ComputeOutcome := fun _ => .failure "TypeError" "bad types"

/-- Witness for `C5_engine_error_mapping`: both error branches at a
concrete one-leaf request. -/
theorem C5_engine_error_mapping_witness :
    compserver envDispatch cfgPlain "int32" engineNotImpl payloadLeaf =
      .reply ("Computation not supported:\n" ++ "no sum") 501 ∧
    compserver envDispatch cfgPlain "int32" engineFail payloadLeaf =
      .reply ("Computation failed with message:\n" ++ "TypeError" ++ ": " ++ "bad types") 500 :=
  ⟨(C5_engine_error_mapping envDispatch cfgPlain "int32" engineNotImpl payloadLeaf
      (leafSymbol "int32") rfl rfl rfl (by decide)).1 "no sum" rfl,
   (C5_engine_error_mapping envDispatch cfgPlain "int32" engineFail payloadLeaf
      (leafSymbol "int32") rfl rfl rfl (by decide)).2 "TypeError" "bad types" rfl⟩

/-- C7 (amended): (1) a payload with `profile=true` against a server with
profiling disallowed gets 403; (2) when the configured sink is the
`':response'` sentinel and the request's effective profiler output is a
different value, the handler returns the sink 403 — provided profiling is
actually in effect for the request (`profiling` truthy); the original
claim omitted that proviso, and `C7_sink_counterexample` shows it is
needed. -/
theorem C7_profiling_gates (env : ResolveEnv) (cfg : ProfilerCfg) (dshape : String)
    (engine : MValue → ComputeOutcome) (payload : ComputePayload) :
    (payload.profile = some true → cfg.allow_profiler = false →
      compserver env cfg dshape engine payload =
        .reply "profiling is disabled on this server" 403) ∧
    (profilingFlag cfg payload = true → cfg.profiler_output = some ":response" →
      requestedOutput cfg payload ≠ some ":response" →
      compserver env cfg dshape engine payload =
        .reply "local filepaths are disabled on this server, only ':response' is allowed for the 'profiler_output' field" 403) := by
  constructor
  · intro hp ha
    simp [compserver, hp, ha]
  · intro hflag hsink hreq
    have ha : cfg.allow_profiler = true := by
      rw [profilingFlag, Bool.and_eq_true] at hflag
      exact hflag.1
    have hfl : profilingFlag cfg payload = true := by
      rw [profilingFlag, Bool.and_eq_true]
      rw [profilingFlag, Bool.and_eq_true] at hflag
      exact hflag
    have hr : (requestedOutput cfg payload == some ":response") = false :=
      beq_eq_false_iff_ne.mpr hreq
    simp [compserver, ha, hfl, hsink, hr]

/-- Server configuration whose sink is the `':response'`
filesystem-disabled sentinel. -/
def cfgRespOnly : ProfilerCfg := ⟨true, some ":response", false⟩

/-- A request naming a concrete filesystem path for profiler output while
not itself enabling profiling. -/
def payloadPathNoProfile : ComputePayload := ⟨.prim (.str ":leaf"), [], none, some "/tmp/prof"⟩

/-- A profiling request naming a concrete filesystem path against the
`':response'`-only server. -/
def payloadPathProfile : ComputePayload :=
  ⟨.prim (.str ":leaf"), [], some true, some "/tmp/prof"⟩

/-- A `profile=true` payload. -/
def payloadProfile : ComputePayload := ⟨.prim (.str ":leaf"), [], some true, none⟩

/-- C7 counterexample: with the configured sink `':response'` and a
request whose requested profiler output is the path `/tmp/prof` (not
`':response'`), the handler does NOT return 403 — because the request does
not turn profiling on, the sink check is skipped and the request is served
with 200. -/
theorem C7_sink_counterexample :
    cfgRespOnly.profiler_output = some ":response" ∧
    requestedOutput cfgRespOnly payloadPathNoProfile = some "/tmp/prof" ∧
    compserver envDispatch cfgRespOnly "int32" engineOk payloadPathNoProfile =
      .reply "result" 200 :=
  ⟨rfl, rfl, rfl⟩

/-- Witness for `C7_profiling_gates`: both 403 branches fire on concrete
requests. -/
theorem C7_profiling_gates_witness :
    compserver envDispatch cfgPlain "int32" engineOk payloadProfile =
      .reply "profiling is disabled on this server" 403 ∧
    compserver envDispatch cfgRespOnly "int32" engineOk payloadPathProfile =
      .reply "local filepaths are disabled on this server, only ':response' is allowed for the 'profiler_output' field" 403 :=
  ⟨(C7_profiling_gates envDispatch cfgPlain "int32" engineOk payloadProfile).1 rfl rfl,
   (C7_profiling_gates envDispatch cfgRespOnly "int32" engineOk payloadPathProfile).2
     rfl rfl (by decide)⟩

/-- C10: before decoding, `compserver` binds `':leaf'` in the decode
namespace to `symbol('leaf', discover(dataset))`, overwriting any
client-supplied `':leaf'` entry: for EVERY payload (including one whose
`'namespace'` mapping carries its own `':leaf'` binding), looking up
`':leaf'` in the request namespace yields the server's leaf symbol, and
decoding the bare alias `':leaf'` reconstructs exactly that symbol — the
client can never substitute its own value. -/
theorem C10_leaf_binding (env : ResolveEnv) (payload : ComputePayload) (dshape : String) :
    lookupNs (requestNamespace payload dshape) (.str ":leaf") = some (leafSymbol dshape) ∧
    from_tree env (requestNamespace payload dshape) (.prim (.str ":leaf")) =
      .ok (leafSymbol dshape) := by
  have h : lookupNs (requestNamespace payload dshape) (.str ":leaf") =
      some (leafSymbol dshape) := by
    simp [lookupNs, requestNamespace, List.find?]
  refine ⟨h, ?_⟩
  simp only [from_tree_prim, h]

/-- An incoming HTTP request as `check_request` reads it: the
`content-type` header (absent headers are `none`) and the raw body
`request.data`. -/
structure HttpRequest where
  content_type : Option String
  data : String

/-- A serialization format as registered with the app: a name and a
`loads` that raises `ValueError` (modelled as `Except.error`) on
non-conforming bytes.  Only `name` and `loads` matter to `check_request`. -/
structure Format (P : Type) where
  name : String
  loads : String → Except String P

/-- The `mimetype_regex` match: the content type must be exactly
`application/vnd.blaze+<name>` for one of the globally known format names
(`all_formats`); the matched group is the format name. -/
def mimetype_match (allFormats : List String) (ct : String) : Option String :=
  allFormats.find? (fun f => ct == "application/vnd.blaze+" ++ f)

/-- The `check_request` decorator from `server.py`.  Reading
`request.headers['content-type']` on a request without that header raises
a key-lookup error (the header mapping's `__getitem__` raises on a
missing key), which `check_request` does not catch — modelled as
`uncaught`.  A present header that does not match `mimetype_regex` gets
415; a matched format name not registered with the app (`_get_format`
raises `KeyError`) gets 415; a body whose decode raises `ValueError` gets
400 with the raw body echoed; otherwise the wrapped handler runs on the
decoded payload. -/
def check_request {P : Type} (allFormats : List String)
    (registered : List (String × Format P))
    (f : P → Format P → HttpOutcome) (req : HttpRequest) : HttpOutcome :=
  match req.content_type with
  | none => .uncaught "KeyError: content-type"
  | some ct =>
    match mimetype_match allFormats ct with
    | none => .reply ("Unsupported serialization format " ++ ct) 415
    | some fname =>
      match lookupStr registered fname with
      | none => .reply ("Unsupported serialization format '" ++ fname ++ "'") 415
      | some serial =>
        match serial.loads req.data with
        | .error _ => .reply ("Bad data.  Got " ++ req.data ++ " ") 400
        | .ok payload => f payload serial

/-- C6 (amended): for a PRESENT content-type header that does not match
the vendor media-type pattern the handler returns 415; a matched but
unregistered format name returns 415; a registered format whose body
decode raises a value error returns 400 with the raw request body echoed
in the response text.  A MISSING content-type header, however, does not
produce 415 (as the original claim stated): the header lookup raises and
the failure escapes the handler uncaught. -/
theorem C6_content_negotiation {P : Type} (allFormats : List String)
    (registered : List (String × Format P)) (f : P → Format P → HttpOutcome)
    (req : HttpRequest) :
    (req.content_type = none →
      check_request allFormats registered f req = .uncaught "KeyError: content-type") ∧
    (∀ ct, req.content_type = some ct → mimetype_match allFormats ct = none →
      check_request allFormats registered f req =
        .reply ("Unsupported serialization format " ++ ct) 415) ∧
    (∀ ct fname, req.content_type = some ct → mimetype_match allFormats ct = some fname →
      lookupStr registered fname = none →
      check_request allFormats registered f req =
        .reply ("Unsupported serialization format '" ++ fname ++ "'") 415) ∧
    (∀ ct fname serial e, req.content_type = some ct →
      mimetype_match allFormats ct = some fname →
      lookupStr registered fname = some serial → serial.loads req.data = .error e →
      check_request allFormats registered f req =
        .reply ("Bad data.  Got " ++ req.data ++ " ") 400) := by
  refine ⟨?_, ?_, ?_, ?_⟩
  · intro h
    simp only [check_request, h]
  · intro ct h1 h2
    simp only [check_request, h1, h2]
  · intro ct fname h1 h2 h3
    simp only [check_request, h1, h2, h3]
  · intro ct fname serial e h1 h2 h3 h4
    simp only [check_request, h1, h2, h3, h4]

/-- A toy `json` format over compute payloads: only the body `"ok"`
decodes. -/
def fmtJson : Format ComputePayload :=
  ⟨"json", fun s => if s == "ok" then .ok ⟨.prim .null, [], none, none⟩ else .error "ValueError"⟩

/-- A stub handler for negotiation witnesses. -/
def handlerStub : ComputePayload → Format ComputePayload → HttpOutcome :=
  fun _ _ => .reply "handled" 200

/-- C6 counterexample: a request with NO content-type header does not get
the claimed 415 response — the key lookup raises and escapes the handler
uncaught. -/
theorem C6_missing_header_counterexample :
    check_request ["json"] [("json", fmtJson)] handlerStub ⟨none, "ok"⟩ =
      .uncaught "KeyError: content-type" := rfl

/-- Witness for `C6_content_negotiation`: all four branches at concrete
requests (non-matching header; matching header naming an unregistered
format; malformed body with the raw body echoed; and the missing-header
escape). -/
theorem C6_content_negotiation_witness :
    check_request ["json", "pickle"] [("json", fmtJson)] handlerStub ⟨some "text/plain", "ok"⟩ =
      .reply ("Unsupported serialization format " ++ "text/plain") 415 ∧
    check_request ["json", "pickle"] [("json", fmtJson)] handlerStub
        ⟨some "application/vnd.blaze+pickle", "ok"⟩ =
      .reply ("Unsupported serialization format '" ++ "pickle" ++ "'") 415 ∧
    check_request ["json", "pickle"] [("json", fmtJson)] handlerStub
        ⟨some "application/vnd.blaze+json", "bad bytes"⟩ =
      .reply ("Bad data.  Got " ++ "bad bytes" ++ " ") 400 ∧
    check_request ["json", "pickle"] [("json", fmtJson)] handlerStub ⟨none, "ok"⟩ =
      .uncaught "KeyError: content-type" :=
  ⟨(C6_content_negotiation ["json", "pickle"] [("json", fmtJson)] handlerStub
      ⟨some "text/plain", "ok"⟩).2.1 "text/plain" rfl rfl,
   (C6_content_negotiation ["json", "pickle"] [("json", fmtJson)] handlerStub
      ⟨some "application/vnd.blaze+pickle", "ok"⟩).2.2.1 "application/vnd.blaze+pickle"
      "pickle" rfl rfl rfl,
   (C6_content_negotiation ["json", "pickle"] [("json", fmtJson)] handlerStub
      ⟨some "application/vnd.blaze+json", "bad bytes"⟩).2.2.2 "application/vnd.blaze+json"
      "json" fmtJson "ValueError" rfl rfl rfl rfl,
   (C6_content_negotiation ["json", "pickle"] [("json", fmtJson)] handlerStub
      ⟨none, "ok"⟩).1 rfl⟩

/-- The server's live data registry as `addserver` inspects it: either a
mutable mapping of dataset name to resource handle, or some other object
whose type name feeds the 422 message. -/
inductive Registry where
  | mapping (entries : List (String × String))
  | other (typeName : String)
deriving Repr, DecidableEq

/-- The decoded `/add` payload: either a mapping of name to resource
descriptor, or some other object whose type name feeds the 422 message. -/
inductive AddPayload where
  | mapping (entries : List (String × String))
  | other (typeName : String)
deriving Repr, DecidableEq

/-- `valmap(resource, payload)` from toolz as used by `addserver`: apply
the external resolution function to every value, eagerly and in order; a
raised resolution error aborts the whole traversal before anything is
produced. -/
def valmapResource (resource : String → Except String String) :
    List (String × String) → Except String (List (String × String))
  | [] => .ok []
  | (k, v) :: rest =>
    match resource v with
    | .error e => .error e
    | .ok r =>
      match valmapResource resource rest with
      | .error e => .error e
      | .ok rs => .ok ((k, r) :: rs)

/-- `data.update(upd)`: entries of `upd` overwrite same-named entries of
`old`; all other entries of `old` are kept. -/
def dictUpdate (old upd : List (String × String)) : List (String × String) :=
  old.filter (fun p => (lookupStr upd p.1).isNone) ++ upd

/-- `addserver(payload, serial)` from `server.py`: 422 if the hosted data
is not a mutable mapping; 422 if the payload is not a mutable mapping;
otherwise `data.update(valmap(resource, payload))` and the literal
acknowledgement `'OK'` (status 200).  A resolution failure inside
`valmap` is not caught: it propagates uncaught and the registry is left
untouched.  Returns the (possibly updated) registry together with the
transport-visible outcome. -/
def addserver (resource : String → Except String String) (data : Registry)
    (payload : AddPayload) : Registry × HttpOutcome :=
  match data with
  | .other t =>
    (data, .reply ("Cannot update blaze server data since its current data is a " ++ t ++
      " and not a mutable mapping (dictionary like).") 422)
  | .mapping old =>
    match payload with
    | .other t =>
      (data, .reply ("Cannot update blaze server with a " ++ t ++
        " payload, since it is not a mutable mapping (dictionary like).") 422)
    | .mapping es =>
      match valmapResource resource es with
      | .error e => (data, .uncaught e)
      | .ok rs => (.mapping (dictUpdate old rs), .reply "OK" 200)

/-- Unfolding `lookupStr` over a cons cell. -/
theorem lookupStr_cons {α : Type} (a : String) (b : α) (rest : List (String × α)) (k : String) :
    lookupStr ((a, b) :: rest) k = if a == k then some b else lookupStr rest k := by
  by_cases h : a == k
  · simp [lookupStr, List.find?, h]
  · simp only [Bool.not_eq_true] at h
    simp [lookupStr, List.find?, h]

/-- Entries of the update win: a key bound in `upd` is bound to the same
value in `dictUpdate old upd`. -/
theorem lookupStr_dictUpdate_right (old upd : List (String × String)) (k v : String)
    (h : lookupStr upd k = some v) : lookupStr (dictUpdate old upd) k = some v := by
  induction old with
  | nil => simpa [dictUpdate]
  | cons p ps ih =>
    rcases p with ⟨a, b⟩
    by_cases hk : (lookupStr upd a).isNone
    · have hane : ¬(a = k) := by
        intro hae
        rw [hae, h] at hk
        simp at hk
      have hne : (a == k) = false := by
        simp [hane]
      rw [dictUpdate] at ih ⊢
      rw [List.filter_cons]
      simp only [hk, if_true]
      rw [List.cons_append, lookupStr_cons, hne, if_neg (by simp)]
      exact ih
    · rw [dictUpdate] at ih ⊢
      rw [List.filter_cons]
      simp only [Bool.not_eq_true] at hk
      simp only [hk, Bool.false_eq_true, if_false]
      exact ih

/-- Entries absent from the update are preserved from the old registry. -/
theorem lookupStr_dictUpdate_left (old upd : List (String × String)) (k : String)
    (h : lookupStr upd k = none) : lookupStr (dictUpdate old upd) k = lookupStr old k := by
  induction old with
  | nil =>
    have he : dictUpdate [] upd = upd := by simp [dictUpdate]
    rw [he, h]
    rfl
  | cons p ps ih =>
    rcases p with ⟨a, b⟩
    rw [dictUpdate] at ih ⊢
    rw [List.filter_cons]
    by_cases hae : a = k
    · have hak : (a == k) = true := by simp [hae]
      have hk : (lookupStr upd a).isNone = true := by
        rw [hae, h]; rfl
      simp only [hk, if_true]
      rw [List.cons_append, lookupStr_cons, hak, if_pos rfl, lookupStr_cons, hak, if_pos rfl]
    · have hak' : (a == k) = false := by simp [hae]
      by_cases hk : (lookupStr upd a).isNone
      · simp only [hk, if_true]
        rw [List.cons_append, lookupStr_cons, hak', if_neg (by simp),
          lookupStr_cons, hak', if_neg (by simp)]
        exact ih
      · simp only [Bool.not_eq_true] at hk
        simp only [hk, Bool.false_eq_true, if_false]
        rw [lookupStr_cons, hak', if_neg (by simp)]
        exact ih

/-- C8: the `/add` contract — a non-mapping registry gets 422 and the
registry is unchanged; a non-mapping payload gets 422 and the registry is
unchanged; when every payload entry resolves, all resolved entries are
merged into the registry (overwriting same-named entries, preserving the
rest) and the handler acknowledges with `'OK'`. -/
theorem C8_addserver_contract (resource : String → Except String String) :
    (∀ t payload, addserver resource (.other t) payload =
      (.other t, .reply ("Cannot update blaze server data since its current data is a " ++ t ++
        " and not a mutable mapping (dictionary like).") 422)) ∧
    (∀ old t, addserver resource (.mapping old) (.other t) =
      (.mapping old, .reply ("Cannot update blaze server with a " ++ t ++
        " payload, since it is not a mutable mapping (dictionary like).") 422)) ∧
    (∀ old es rs, valmapResource resource es = .ok rs →
      addserver resource (.mapping old) (.mapping es) =
        (.mapping (dictUpdate old rs), .reply "OK" 200) ∧
      (∀ k v, lookupStr rs k = some v → lookupStr (dictUpdate old rs) k = some v) ∧
      (∀ k, lookupStr rs k = none → lookupStr (dictUpdate old rs) k = lookupStr old k)) := by
  refine ⟨?_, ?_, ?_⟩
  · intro t payload
    rfl
  · intro old t
    rfl
  · intro old es rs h
    refine ⟨?_, ?_, ?_⟩
    · simp only [addserver, h]
    · intro k v hk
      exact lookupStr_dictUpdate_right old rs k v hk
    · intro k hk
      exact lookupStr_dictUpdate_left old rs k hk

/-- An external resolution function: every descriptor resolves except
`"bad"`, which raises. -/
def resW : String → Except String String := fun d =>
  if d == "bad" then .error "NotImplementedError: unable to parse" else .ok ("resource(" ++ d ++ ")")

/-- Witness for `C8_addserver_contract`: a concrete merge that overwrites
an existing entry and returns `'OK'`. -/
theorem C8_addserver_contract_witness :
    addserver resW (.mapping [("x", "old-x")]) (.mapping [("x", "file.csv"), ("y", "db")]) =
      (.mapping (dictUpdate [("x", "old-x")] [("x", "resource(file.csv)"), ("y", "resource(db)")]),
       .reply "OK" 200) ∧
    lookupStr (dictUpdate [("x", "old-x")] [("x", "resource(file.csv)"), ("y", "resource(db)")])
      "x" = some "resource(file.csv)" := by
  have h := (C8_addserver_contract resW).2.2 [("x", "old-x")] [("x", "file.csv"), ("y", "db")]
    [("x", "resource(file.csv)"), ("y", "resource(db)")] rfl
  exact ⟨h.1, h.2.1 "x" "resource(file.csv)" rfl⟩

/-- C9 counterexample: an `/add` payload with one resolvable entry
(`"a" ↦ "good"`) and one unresolvable entry (`"b" ↦ "bad"`) against a
mutable registry does NOT merge the resolvable entry — `valmap` raises on
the bad entry before `data.update` runs, the failure propagates uncaught,
and the registry stays empty. -/
theorem C9_partial_add_counterexample :
    resW "good" = .ok "resource(good)" ∧
    resW "bad" = .error "NotImplementedError: unable to parse" ∧
    addserver resW (.mapping []) (.mapping [("a", "good"), ("b", "bad")]) =
      (.mapping [], .uncaught "NotImplementedError: unable to parse") :=
  ⟨rfl, rfl, rfl⟩

/-- C9 (amended): `/add` resolution is all-or-nothing — if resolving any
entry fails, the resolution error propagates uncaught past the handler
and NO entry (not even the resolvable ones) is merged; the registry is
returned unchanged. -/
theorem C9_add_all_or_nothing (resource : String → Except String String)
    (old es : List (String × String)) (e : String)
    (h : valmapResource resource es = .error e) :
    addserver resource (.mapping old) (.mapping es) = (.mapping old, .uncaught e) := by
  simp only [addserver, h]

/-- Witness for `C9_add_all_or_nothing` at a concrete mixed payload. -/
theorem C9_add_all_or_nothing_witness :
    addserver resW (.mapping [("x", "old-x")]) (.mapping [("a", "good"), ("b", "bad")]) =
      (.mapping [("x", "old-x")], .uncaught "NotImplementedError: unable to parse") :=
  C9_add_all_or_nothing resW [("x", "old-x")] [("a", "good"), ("b", "bad")]
    "NotImplementedError: unable to parse" rfl
